import Mathlib

/-!
Verification of the D11 Safety HUD core (src/app.py): the risk-scoring
functions, the synthetic telemetry generator, the proposal lifecycle, and
the bounded audit log.  All real-valued quantities of the Python source are
embedded as exact rationals; machine integers are `Int`/`Nat`; the per-call
NumPy generator is embedded as a record of the draws one `generate_tick`
call consumes, produced by an abstract seeded source `Int → Draws`.
-/

set_option maxHeartbeats 1000000
set_option maxRecDepth 8000

namespace D11

/-! ## Basic numeric helpers (Python semantics) -/

/-- `clamp` from the source: `max(lo, min(hi, v))`. -/
def clamp (v lo hi : ℚ) : ℚ := max lo (min hi v)

/-- Python `int(x)`: truncation toward zero. -/
def pyInt (q : ℚ) : ℤ := if q < 0 then -⌊-q⌋ else ⌊q⌋

/-- Python `round(x)` (and the rounding used by `format(x, ".nf")`):
round half to even. -/
def pyRound (q : ℚ) : ℤ :=
  let f := ⌊q⌋
  let frac := q - (f : ℚ)
  if frac < 1/2 then f
  else if 1/2 < frac then f + 1
  else if f % 2 = 0 then f else f + 1

/-- Left-pad a digit string with zeros to width `n`. -/
def padZeros (s : String) (n : ℕ) : String :=
  String.mk (List.replicate (n - s.length) '0') ++ s

/-- Python fixed-point formatting `f"{q:.precf}"` over exact rationals. -/
def fmtFixed (prec : ℕ) (q : ℚ) : String :=
  let r : ℤ := pyRound (q * (10 : ℚ) ^ prec)
  let sign := if r < 0 then "-" else ""
  let a := r.natAbs
  if prec = 0 then sign ++ toString a
  else sign ++ toString (a / 10 ^ prec) ++ "." ++ padZeros (toString (a % 10 ^ prec)) prec

/-! ## Data model -/

/-- Proposal lifecycle status strings. -/
inductive Status where
  | PENDING
  | APPROVED
  | REJECTED
  | DEFERRED
deriving DecidableEq

/-- The string the Python source stores for each status. -/
def statusStr : Status → String
  | Status.PENDING => "PENDING"
  | Status.APPROVED => "APPROVED"
  | Status.REJECTED => "REJECTED"
  | Status.DEFERRED => "DEFERRED"

/-- One simulated telemetry instant (dataclass `TelemetryRow`). -/
structure TelemetryRow where
  tick : ℕ
  ts : ℚ
  speed_kph : ℚ
  gear : ℤ
  engine_rpm : ℤ
  grade_pct : ℚ
  roll_deg : ℚ
  pitch_deg : ℚ
  blade_load_pct : ℚ
  fuel_pct : ℚ
  ground_firmness : ℚ
  moisture_index : ℚ
  visibility : ℚ
  gnss_hdop : ℚ
  gnss_jitter_m : ℚ
  obstacle_distance_m : ℚ
  obstacle_bearing_deg : ℚ
  shift_hours : ℚ
  micro_corrections_per_min : ℚ
  rollover_risk : ℚ
  slip_risk : ℚ
  obstacle_risk : ℚ
  gnss_confidence : ℚ
  overall_risk : ℚ
  state : String
deriving DecidableEq

/-- The fixed-key snapshot dictionary stored with each proposal. -/
structure Snapshot where
  tick : ℕ
  overall_risk : ℚ
  rollover_risk : ℚ
  slip_risk : ℚ
  obstacle_risk : ℚ
  gnss_confidence : ℚ
  grade_pct : ℚ
  roll_deg : ℚ
  speed_kph : ℚ
  obstacle_distance_m : ℚ
deriving DecidableEq

/-- A human-reviewable recommendation (dataclass `Proposal`). -/
structure Proposal where
  id : ℕ
  created_ts : ℚ
  title : String
  rationale : String
  status : Status
  snapshot : Snapshot
deriving DecidableEq

/-- Values stored in an audit entry's auxiliary `meta` mapping. -/
inductive MetaVal where
  | s (v : String)
  | q (v : ℚ)
deriving DecidableEq

/-- An immutable audit record (dataclass `AuditEntry`). -/
structure AuditEntry where
  ts : ℚ
  kind : String
  summary : String
  meta : List (String × MetaVal)
deriving DecidableEq

/-- The slice of `st.session_state` that the proposal/audit operations
touch: the proposal list, the audit log and the id counter. -/
structure SimState where
  proposals : List Proposal
  audit : List AuditEntry
  next_proposal_id : ℕ
deriving DecidableEq

/-! ## Audit log -/

/-- Python `l[-n:]`: the last `n` elements (all of them when shorter). -/
def takeLast (n : ℕ) (l : List α) : List α := l.drop (l.length - n)

/-- The effect of one `log_audit` call on `ss.audit`: append the entry,
then keep only the last 150 entries (`ss.audit = ss.audit[-150:]`). -/
def auditAppend (l : List AuditEntry) (e : AuditEntry) : List AuditEntry :=
  takeLast 150 (l ++ [e])

/-- `log_audit(kind, summary, meta)` building the entry at time `now`. -/
def log_audit (l : List AuditEntry) (now : ℚ) (kind summary : String)
    (meta : List (String × MetaVal)) : List AuditEntry :=
  auditAppend l ⟨now, kind, summary, meta⟩

/-! ## Risk engine (pure functions of src/app.py) -/

/-- `compute_rollover_risk(grade_pct, roll_deg, speed_kph)`. -/
def compute_rollover_risk (grade_pct roll_deg speed_kph : ℚ) : ℚ :=
  let grade_factor := |grade_pct| / 25
  let roll_factor := |roll_deg| / 20
  let speed_factor := speed_kph / 12
  let base := 55 * roll_factor + 30 * grade_factor + 25 * speed_factor
  clamp base 0 100

/-- `compute_slip_risk(grade_pct, moisture, firmness, speed_kph)`. -/
def compute_slip_risk (grade_pct moisture firmness speed_kph : ℚ) : ℚ :=
  let downhill_factor := clamp (grade_pct / 20) (-1.2) 1.2
  let downhill_factor := max 0 downhill_factor
  let moisture_factor := moisture
  let softness_factor := 1 - firmness
  let speed_factor := speed_kph / 10
  let base := 40 * downhill_factor + 35 * moisture_factor + 35 * softness_factor
    + 20 * speed_factor
  clamp base 0 100

/-- `compute_gnss_confidence(hdop, jitter_m, visibility)`. -/
def compute_gnss_confidence (hdop jitter_m visibility : ℚ) : ℚ :=
  let hdop_term := clamp ((3.5 - hdop) / 3.5) 0 1
  let jitter_term := clamp ((3.0 - jitter_m) / 3.0) 0 1
  let vis_term := clamp visibility 0 1
  let conf := 0.45 * hdop_term + 0.35 * jitter_term + 0.20 * vis_term
  clamp (conf * 100) 0 100

/-- `compute_obstacle_risk(distance_m, speed_kph)`. -/
def compute_obstacle_risk (distance_m speed_kph : ℚ) : ℚ :=
  if distance_m ≥ 80 ∨ distance_m = 999 then 0
  else
    let speed_mps := speed_kph / 3.6
    let speed_mps := if speed_mps < 0.1 then 0.1 else speed_mps
    let ttc := distance_m / speed_mps
    let base : ℚ := if ttc > 40 then 10 else if ttc > 20 then 35
      else if ttc > 10 then 60 else 85
    clamp base 0 100

/-- `compute_overall_risk(rollover, slip, obstacle, gnss_conf)`. -/
def compute_overall_risk (rollover slip obstacle gnss_conf : ℚ) : ℚ :=
  let gnss_penalty := (100 - gnss_conf) * 0.25
  let base := 0.38 * rollover + 0.34 * slip + 0.28 * obstacle + gnss_penalty
  clamp base 0 100

/-- `classify_state(overall_risk)`. -/
def classify_state (overall_risk : ℚ) : String :=
  if overall_risk < 25 then "STABLE"
  else if overall_risk < 50 then "ELEVATED"
  else if overall_risk < 75 then "HIGH"
  else "CRITICAL"

/-! ## Synthetic telemetry generator

`generate_tick` builds a fresh NumPy generator on every call, seeded from the
wall clock: `rng = np.random.default_rng(seed=int(base_ts*1000) % (2**32-1))`.
One call consumes a fixed family of draws from that generator; `Draws`
records them.  A call `rng.normal(loc, scale)` is embedded as
`loc + scale * z` with `z` the underlying standard-normal draw (unbounded);
`rng.random()` returns a draw in `[0,1)`; `rng.uniform(a, b)` is embedded as
`a + (b-a) * u` with `u ∈ [0,1)`. -/

/-- The raw draws one `generate_tick` call can consume, in call order. -/
structure Draws where
  zSpeed : ℚ
  zRpm : ℚ
  zGradeStep : ℚ
  zGrade : ℚ
  zRoll : ℚ
  zPitch : ℚ
  uLoad : ℚ
  zLoad : ℚ
  zRain : ℚ
  zMoist : ℚ
  zFirm : ℚ
  zVis : ℚ
  zHdop : ℚ
  zJit : ℚ
  uSpawn : ℚ
  uObsDist : ℚ
  uObsBear : ℚ
  zMicro : ℚ
deriving DecidableEq

/-- Support of the distributions backing the `rng.random()`/`rng.uniform`
draws (`numpy` returns values in `[0,1)`); the normal draws are unbounded. -/
def DrawsValid (d : Draws) : Prop :=
  0 ≤ d.uLoad ∧ d.uLoad < 1 ∧ 0 ≤ d.uSpawn ∧ d.uSpawn < 1 ∧
  0 ≤ d.uObsDist ∧ d.uObsDist < 1 ∧ 0 ≤ d.uObsBear ∧ d.uObsBear < 1

instance (d : Draws) : Decidable (DrawsValid d) := by
  unfold DrawsValid
  infer_instance

/-- The shared tail of `generate_tick` (source lines 352-387): compute the
five risk scores from the finished physical fields, classify, and build the
`TelemetryRow`. -/
def finishRow (tick : ℕ) (ts speed_kph : ℚ) (gear engine_rpm : ℤ)
    (grade_pct roll_deg pitch_deg blade_load_pct fuel_pct ground_firmness
      moisture_index visibility gnss_hdop gnss_jitter_m obstacle_distance_m
      obstacle_bearing_deg shift_hours micro_corr : ℚ) : TelemetryRow :=
  let rollover_risk := compute_rollover_risk grade_pct roll_deg speed_kph
  let slip_risk := compute_slip_risk grade_pct moisture_index ground_firmness speed_kph
  let obstacle_risk := compute_obstacle_risk obstacle_distance_m speed_kph
  let gnss_conf := compute_gnss_confidence gnss_hdop gnss_jitter_m visibility
  let overall_risk := compute_overall_risk rollover_risk slip_risk obstacle_risk gnss_conf
  { tick := tick
    ts := ts
    speed_kph := speed_kph
    gear := gear
    engine_rpm := engine_rpm
    grade_pct := grade_pct
    roll_deg := roll_deg
    pitch_deg := pitch_deg
    blade_load_pct := blade_load_pct
    fuel_pct := fuel_pct
    ground_firmness := ground_firmness
    moisture_index := moisture_index
    visibility := visibility
    gnss_hdop := gnss_hdop
    gnss_jitter_m := gnss_jitter_m
    obstacle_distance_m := obstacle_distance_m
    obstacle_bearing_deg := obstacle_bearing_deg
    shift_hours := shift_hours
    micro_corrections_per_min := micro_corr
    rollover_risk := rollover_risk
    slip_risk := slip_risk
    obstacle_risk := obstacle_risk
    gnss_confidence := gnss_conf
    overall_risk := overall_risk
    state := classify_state overall_risk }

/-- `generate_tick(prev)` with its ambient inputs made explicit: `ssTick`
is the controller's tick counter `ss.tick`, `baseTs` the wall-clock reading
`time.time()`, and `d` the draws of the per-call generator.  On cold start
(`prev = None`) the defaults are returned unchanged; otherwise the update
block evolves every field from `prev` before the risks are computed. -/
def generate_tick (ssTick : ℕ) (baseTs : ℚ) (prev : Option TelemetryRow)
    (d : Draws) : TelemetryRow :=
  let tick := ssTick + 1
  match prev with
  | none =>
      finishRow tick baseTs 0 1 800 0 0 0 0 90 0.7 0.3 0.9 0.8 0.3 999 0 2 22
  | some p =>
      let shift_hours := p.shift_hours + 1/60
      let mode := (tick / 40) % 4
      let target_speed : ℚ :=
        if mode = 0 then 2 else if mode = 1 then 5 else if mode = 2 then 8 else 3
      let speed_kph := p.speed_kph + ((target_speed - p.speed_kph) * 0.25 + 0.5 * d.zSpeed)
      let speed_kph := clamp speed_kph 0 12
      let gear : ℤ := max 1 (min 4 (pyRound (1 + speed_kph / 3)))
      let engine_rpm : ℤ := pyInt (clamp (800 + speed_kph * 120 + (0 + 80 * d.zRpm)) 800 2100)
      let grade_pct := p.grade_pct + (if tick % 50 = 0 then 0 + 4 * d.zGradeStep else 0)
      let grade_pct := grade_pct + (0 + 0.5 * d.zGrade)
      let grade_pct := clamp grade_pct (-22) 22
      let roll_deg := p.roll_deg + (grade_pct * 0.03 + 1 * d.zRoll)
      let pitch_deg := p.pitch_deg + (grade_pct * 0.04 + 0.8 * d.zPitch)
      let roll_deg := clamp roll_deg (-18) 18
      let pitch_deg := clamp pitch_deg (-15) 15
      let target_load : ℚ :=
        if mode = 0 ∨ mode = 1 then 70 + 20 * d.uLoad else 20 * d.uLoad
      let blade_load_pct :=
        p.blade_load_pct + ((target_load - p.blade_load_pct) * 0.3 + 4 * d.zLoad)
      let blade_load_pct := clamp blade_load_pct 0 115
      let fuel_pct := p.fuel_pct - (0.03 + speed_kph * 0.01)
      let fuel_pct := clamp fuel_pct 5 100
      let moisture_index :=
        p.moisture_index + (if tick % 120 = 0 then 0.15 + 0.05 * d.zRain else 0)
      let moisture_index := moisture_index + (0 + 0.01 * d.zMoist)
      let moisture_index := clamp moisture_index 0.1 0.95
      let ground_firmness :=
        p.ground_firmness + (-0.015 * moisture_index + 0.01 * d.zFirm)
      let ground_firmness := clamp ground_firmness 0.25 0.95
      let visibility := p.visibility + (-0.004 + 0.01 * d.zVis)
      let visibility := clamp visibility 0.3 1
      let gnss_hdop := p.gnss_hdop + (0.02 * (1 - visibility) + 0.04 * d.zHdop)
      let gnss_hdop := clamp gnss_hdop 0.5 3.5
      let gnss_jitter_m := p.gnss_jitter_m + (0.05 * (1 - visibility) + 0.06 * d.zJit)
      let gnss_jitter_m := clamp gnss_jitter_m 0.15 3
      let obs : ℚ × ℚ :=
        if d.uSpawn < 0.06 then
          (6 + (35 - 6) * d.uObsDist, -120 + (120 - (-120)) * d.uObsBear)
        else
          let dist := p.obstacle_distance_m + 3
          (if dist > 80 then 999 else dist, p.obstacle_bearing_deg)
      let micro_corr :=
        p.micro_corrections_per_min + (0.1 * (|grade_pct| + |roll_deg|) / 20 + 1 * d.zMicro)
      let micro_corr := clamp micro_corr 8 60
      finishRow tick baseTs speed_kph gear engine_rpm grade_pct roll_deg pitch_deg
        blade_load_pct fuel_pct ground_firmness moisture_index visibility gnss_hdop
        gnss_jitter_m obs.1 obs.2 shift_hours micro_corr

/-- The seed `generate_tick` derives from the wall clock:
`int(base_ts * 1000) % (2**32 - 1)` (Python `%` is nonnegative here). -/
def rngSeed (baseTs : ℚ) : ℤ := pyInt (baseTs * 1000) % (2 ^ 32 - 1)

/-- The controller keeps `ss.tick` equal to the tick of the last history row
(`ss.tick = latest_row.tick` after every step, `0` after `init_state`), and
`generate_tick` is always called with `prev = ss.history[-1] if ss.history
else None`.  So the counter the call observes is a function of `prev`. -/
def prevTick : Option TelemetryRow → ℕ
  | none => 0
  | some p => p.tick

/-- One live `generate_tick` call: the per-call generator is an abstract
seeded source `prng : ℤ → Draws`, consulted at the wall-clock seed. -/
def generate_tick_live (prev : Option TelemetryRow) (baseTs : ℚ)
    (prng : ℤ → Draws) : TelemetryRow :=
  generate_tick (prevTick prev) baseTs prev (prng (rngSeed baseTs))

/-- Drive `n` ticks from cold start: tick `i` reads the clock `clock i` and
draws from the source seeded by that reading, exactly as the controller's
auto-tick loop does.  Returns the rows oldest-first. -/
def runTicks (n : ℕ) (clock : ℕ → ℚ) (prng : ℤ → Draws) : List TelemetryRow :=
  let step : ℕ → Option TelemetryRow × List TelemetryRow →
      Option TelemetryRow × List TelemetryRow := fun i st =>
    let row := generate_tick_live st.1 (clock i) prng
    (some row, st.2 ++ [row])
  ((List.range n).foldl (fun st i => step i st) (none, [])).2

/-- A row with the `ts` field zeroed: the part of a `TelemetryRow` that is
a function of the previous row and the random draws alone. -/
def eraseTs (r : TelemetryRow) : TelemetryRow := { r with ts := 0 }

/-! ## Proposal engine -/

/-- Number of proposals currently in `PENDING` status
(`len([p for p in ss.proposals if p.status == "PENDING"])`). -/
def countPending (ps : List Proposal) : ℕ :=
  (ps.filter (fun p => p.status == Status.PENDING)).length

/-- The snapshot dictionary captured by `maybe_generate_proposal`. -/
def rowSnapshot (latest : TelemetryRow) : Snapshot :=
  { tick := latest.tick
    overall_risk := latest.overall_risk
    rollover_risk := latest.rollover_risk
    slip_risk := latest.slip_risk
    obstacle_risk := latest.obstacle_risk
    gnss_confidence := latest.gnss_confidence
    grade_pct := latest.grade_pct
    roll_deg := latest.roll_deg
    speed_kph := latest.speed_kph
    obstacle_distance_m := latest.obstacle_distance_m }

/-- The trigger list of `maybe_generate_proposal`, in evaluation order. -/
def triggersOf (latest : TelemetryRow) : List String :=
  (if latest.overall_risk > 65 then ["high_overall_risk"] else []) ++
  (if latest.rollover_risk > 70 then ["rollover_exposure"] else []) ++
  (if latest.slip_risk > 70 then ["traction_margin_low"] else []) ++
  (if latest.obstacle_risk > 60 then ["obstacle_close"] else []) ++
  (if latest.gnss_confidence < 55 then ["low_gnss_conf"] else [])

/-- Title selection of `maybe_generate_proposal` (first membership match). -/
def titleOf (triggers : List String) : String :=
  if "obstacle_close" ∈ triggers then "Pause travel — obstacle within unsafe margin"
  else if "rollover_exposure" ∈ triggers then "Reduce cross-slope exposure and slow to crawl"
  else if "traction_margin_low" ∈ triggers then "Back out, re-cut access path, and reassess ground"
  else if "low_gnss_conf" ∈ triggers then "Switch to local references — GNSS degraded"
  else "Hold profile and reduce speed until risk stabilizes"

/-- Rationale clauses of `maybe_generate_proposal`, in the fixed order. -/
def rationaleOf (triggers : List String) (latest : TelemetryRow) : String :=
  let bits : List String :=
    (if "high_overall_risk" ∈ triggers then
      ["overall risk " ++ fmtFixed 1 latest.overall_risk ++ "% > safe band"] else []) ++
    (if "rollover_exposure" ∈ triggers then
      ["roll angle " ++ fmtFixed 1 latest.roll_deg ++ "° on grade "
        ++ fmtFixed 1 latest.grade_pct ++ "%"] else []) ++
    (if "traction_margin_low" ∈ triggers then
      ["slip risk elevated (moisture " ++ fmtFixed 2 latest.moisture_index
        ++ ", firmness " ++ fmtFixed 2 latest.ground_firmness ++ ")"] else []) ++
    (if "obstacle_close" ∈ triggers ∧ latest.obstacle_distance_m ≠ 999 then
      ["obstacle at " ++ fmtFixed 1 latest.obstacle_distance_m ++ " m, bearing "
        ++ fmtFixed 0 latest.obstacle_bearing_deg ++ "°"] else []) ++
    (if "low_gnss_conf" ∈ triggers then
      ["GNSS confidence " ++ fmtFixed 0 latest.gnss_confidence ++ "%"] else [])
  String.intercalate " · " bits

/-- `maybe_generate_proposal(latest)` acting on the session state, with the
wall-clock reading `now` made explicit.  Backpressure first (cap of 4
pending), then trigger evaluation; on a fire, build the proposal, append
it, bump the id counter, and log a `proposal` audit entry. -/
def maybe_generate_proposal (s : SimState) (latest : TelemetryRow) (now : ℚ) : SimState :=
  if 4 ≤ countPending s.proposals then s
  else if triggersOf latest = [] then s
  else
      let title := titleOf (triggersOf latest)
      let rationale := rationaleOf (triggersOf latest) latest
      let proposal : Proposal :=
        { id := s.next_proposal_id
          created_ts := now
          title := title
          rationale := rationale
          status := Status.PENDING
          snapshot := rowSnapshot latest }
      { proposals := s.proposals ++ [proposal]
        audit := log_audit s.audit now "proposal"
          ("Proposal #" ++ toString proposal.id ++ ": " ++ title)
          [("rationale", MetaVal.s rationale)]
        next_proposal_id := s.next_proposal_id + 1 }

/-! ## Decision operation -/

/-- `update_proposal_status(prop, new_status)`: set the status and log a
`decision` audit entry recording the previous status.  Returns the updated
proposal and the updated audit log. -/
def update_proposal_status (audit : List AuditEntry) (prop : Proposal)
    (new_status : Status) (now : ℚ) : Proposal × List AuditEntry :=
  let old := prop.status
  let prop := { prop with status := new_status }
  (prop, log_audit audit now "decision"
    (statusStr new_status ++ " → Proposal #" ++ toString prop.id)
    [("title", MetaVal.s prop.title), ("prev", MetaVal.s (statusStr old))])

/-- Replace the status of the first proposal whose id matches (the Python
code mutates the object found by `next(p for p in ss.proposals if p.id ==
pid)` in place, so only the first match changes). -/
def updateFirst (ps : List Proposal) (pid : ℕ) (st : Status) : List Proposal :=
  match ps with
  | [] => []
  | p :: rest =>
      if p.id == pid then { p with status := st } :: rest
      else p :: updateFirst rest pid st

/-- The decision operation as wired in the source: look the proposal up by
id (`next(p for p in ss.proposals if p.id == pid)`; a missing id aborts the
call before any mutation), refuse unless the status is `PENDING` (the
Approve/Reject/Defer buttons are `disabled=prop.status != "PENDING"`), and
otherwise run `update_proposal_status`.  `none` means the call failed and
the state is untouched. -/
def decideProposal (s : SimState) (pid : ℕ) (new_status : Status) (now : ℚ) :
    Option SimState :=
  match s.proposals.find? (fun p => p.id == pid) with
  | none => none
  | some p =>
      if p.status == Status.PENDING then
        some { proposals := updateFirst s.proposals pid new_status
               audit := (update_proposal_status s.audit p new_status now).2
               next_proposal_id := s.next_proposal_id }
      else none

/-! ## Concrete material for witnesses -/

/-- The all-zero draw record (a concrete deterministic source). -/
def dZero : Draws := ⟨0, 0, 0, 0, 0, 0, 0, 0, 0, 0, 0, 0, 0, 0, 0, 0, 0, 0⟩

/-- A concrete deterministic random source: every seed yields `dZero`. -/
def prngZero : ℤ → Draws := fun _ => dZero

/-- A concrete snapshot. -/
def snap0 : Snapshot := ⟨1, 70, 0, 0, 0, 100, 0, 0, 0, 999⟩

/-- A concrete proposal with the given id and status. -/
def mkP (i : ℕ) (st : Status) : Proposal := ⟨i, 0, "t", "r", st, snap0⟩

/-- A session state holding four `PENDING` proposals (the backpressure cap). -/
def state4 : SimState :=
  ⟨[mkP 1 Status.PENDING, mkP 2 Status.PENDING, mkP 3 Status.PENDING,
    mkP 4 Status.PENDING], [], 5⟩

/-- A qualifying telemetry row: only `overall_risk = 70 > 65` fires. -/
def qRow : TelemetryRow :=
  ⟨1, 0, 0, 1, 800, 0, 0, 0, 0, 90, 0.7, 0.3, 0.9, 0.8, 0.3, 999, 0, 2, 22,
    0, 0, 0, 100, 70, "HIGH"⟩

/-! ## Helper lemmas -/

theorem clamp_bounds (v : ℚ) {lo hi : ℚ} (h : lo ≤ hi) :
    lo ≤ clamp v lo hi ∧ clamp v lo hi ≤ hi :=
  ⟨le_max_left lo _, max_le h (min_le_left hi v)⟩

theorem compute_rollover_risk_mem (a b c : ℚ) :
    0 ≤ compute_rollover_risk a b c ∧ compute_rollover_risk a b c ≤ 100 :=
  clamp_bounds _ (by norm_num)

theorem compute_slip_risk_mem (a b c d : ℚ) :
    0 ≤ compute_slip_risk a b c d ∧ compute_slip_risk a b c d ≤ 100 :=
  clamp_bounds _ (by norm_num)

theorem compute_gnss_confidence_mem (a b c : ℚ) :
    0 ≤ compute_gnss_confidence a b c ∧ compute_gnss_confidence a b c ≤ 100 :=
  clamp_bounds _ (by norm_num)

theorem compute_overall_risk_mem (a b c d : ℚ) :
    0 ≤ compute_overall_risk a b c d ∧ compute_overall_risk a b c d ≤ 100 :=
  clamp_bounds _ (by norm_num)

theorem compute_obstacle_risk_mem (a b : ℚ) :
    0 ≤ compute_obstacle_risk a b ∧ compute_obstacle_risk a b ≤ 100 := by
  unfold compute_obstacle_risk
  split_ifs with h
  · norm_num
  · exact clamp_bounds _ (by norm_num)

theorem pyInt_bounds {q : ℚ} {lo hi : ℤ} (h0 : 0 ≤ lo) (h1 : (lo : ℚ) ≤ q)
    (h2 : q ≤ (hi : ℚ)) : lo ≤ pyInt q ∧ pyInt q ≤ hi := by
  have hq : ¬ q < 0 := by
    have : (0 : ℚ) ≤ q := le_trans (by exact_mod_cast h0) h1
    linarith
  unfold pyInt
  rw [if_neg hq]
  constructor
  · exact Int.le_floor.mpr h1
  · calc ⌊q⌋ ≤ ⌊(hi : ℚ)⌋ := Int.floor_le_floor h2
      _ = hi := Int.floor_intCast hi

/-! ## C7: obstacle risk -/

/-- The spec's description of `obstacle_risk(distance_m, speed_kph)`,
written from the spec's words for comparison with the source function. -/
def obstacle_risk_spec (distance_m speed_kph : ℚ) : ℚ :=
  if distance_m ≥ 80 ∨ distance_m = 999 then 0
  else
    let speed_mps := max (speed_kph / 3.6) 0.1
    let ttc := distance_m / speed_mps
    if ttc > 40 then 10 else if ttc > 20 then 35 else if ttc > 10 then 60 else 85

/-- C7: `compute_obstacle_risk` returns 0 when `distance_m ≥ 80` or
`distance_m = 999`, and otherwise the TTC piecewise value with
`speed_mps = max(speed_kph/3.6, 0.1)`, exactly as the spec states; in
particular it maps `(999, s)` and `(80, s)` to 0 for every speed `s`, and
`(5, 36)` to 85. -/
theorem obstacle_risk_spec_match :
    (∀ d s : ℚ, compute_obstacle_risk d s = obstacle_risk_spec d s) ∧
    (∀ s : ℚ, compute_obstacle_risk 999 s = 0) ∧
    (∀ s : ℚ, compute_obstacle_risk 80 s = 0) ∧
    compute_obstacle_risk 5 36 = 85 := by
  refine ⟨fun d s => ?_, fun s => ?_, fun s => ?_, ?_⟩
  · unfold compute_obstacle_risk obstacle_risk_spec
    split_ifs with h
    · rfl
    · have hmax : (if s / 3.6 < 0.1 then (0.1 : ℚ) else s / 3.6) = max (s / 3.6) 0.1 := by
        rcases lt_or_le (s / 3.6) 0.1 with h1 | h1
        · rw [if_pos h1, max_eq_right h1.le]
        · rw [if_neg (not_lt.mpr h1), max_eq_left h1]
      simp only [hmax]
      split_ifs <;> norm_num [clamp]
  · unfold compute_obstacle_risk
    rw [if_pos (Or.inr rfl)]
  · unfold compute_obstacle_risk
    rw [if_pos (Or.inl (by norm_num))]
  · norm_num [compute_obstacle_risk, clamp]

/-! ## C8: classification thresholds -/

/-- C8: `classify_state` buckets overall risk as STABLE below 25, ELEVATED
on `[25,50)`, HIGH on `[50,75)` and CRITICAL from 75 up, with the stated
boundary values landing in the upper bucket. -/
theorem classify_thresholds :
    (∀ v : ℚ,
      (v < 25 ∧ classify_state v = "STABLE") ∨
      (25 ≤ v ∧ v < 50 ∧ classify_state v = "ELEVATED") ∨
      (50 ≤ v ∧ v < 75 ∧ classify_state v = "HIGH") ∨
      (75 ≤ v ∧ classify_state v = "CRITICAL")) ∧
    classify_state (24999/1000) = "STABLE" ∧
    classify_state 25 = "ELEVATED" ∧
    classify_state (49999/1000) = "ELEVATED" ∧
    classify_state 50 = "HIGH" ∧
    classify_state (74999/1000) = "HIGH" ∧
    classify_state 75 = "CRITICAL" := by
  refine ⟨fun v => ?_, by norm_num [classify_state], by norm_num [classify_state],
    by norm_num [classify_state], by norm_num [classify_state],
    by norm_num [classify_state], by norm_num [classify_state]⟩
  unfold classify_state
  split_ifs with h1 h2 h3
  · exact Or.inl ⟨h1, rfl⟩
  · exact Or.inr (Or.inl ⟨not_lt.mp h1, h2, rfl⟩)
  · exact Or.inr (Or.inr (Or.inl ⟨not_lt.mp h2, h3, rfl⟩))
  · exact Or.inr (Or.inr (Or.inr ⟨not_lt.mp h3, rfl⟩))

/-! ## C3: cold-start defaults -/

/-- C3: with `prev = None` the generator returns the fixed defaults:
speed 0, gear 1, rpm 800, grade 0, firmness 0.7, moisture 0.3,
visibility 0.9, fuel 90, obstacle sentinel 999, shift 2.0 h and 22
micro-corrections per minute. -/
theorem cold_start_defaults (ssTick : ℕ) (baseTs : ℚ) (d : Draws) :
    (generate_tick ssTick baseTs none d).speed_kph = 0 ∧
    (generate_tick ssTick baseTs none d).gear = 1 ∧
    (generate_tick ssTick baseTs none d).engine_rpm = 800 ∧
    (generate_tick ssTick baseTs none d).grade_pct = 0 ∧
    (generate_tick ssTick baseTs none d).ground_firmness = 0.7 ∧
    (generate_tick ssTick baseTs none d).moisture_index = 0.3 ∧
    (generate_tick ssTick baseTs none d).visibility = 0.9 ∧
    (generate_tick ssTick baseTs none d).fuel_pct = 90 ∧
    (generate_tick ssTick baseTs none d).obstacle_distance_m = 999 ∧
    (generate_tick ssTick baseTs none d).shift_hours = 2 ∧
    (generate_tick ssTick baseTs none d).micro_corrections_per_min = 22 :=
  ⟨rfl, rfl, rfl, rfl, rfl, rfl, rfl, rfl, rfl, rfl, rfl⟩

/-! ## C4: every generated row is within its documented clamp ranges -/

/-- The documented per-field ranges of a `TelemetryRow`, plus the fact that
the stored classification is the pure function of the stored overall risk. -/
def RowBounded (r : TelemetryRow) : Prop :=
  (0 ≤ r.rollover_risk ∧ r.rollover_risk ≤ 100) ∧
  (0 ≤ r.slip_risk ∧ r.slip_risk ≤ 100) ∧
  (0 ≤ r.obstacle_risk ∧ r.obstacle_risk ≤ 100) ∧
  (0 ≤ r.gnss_confidence ∧ r.gnss_confidence ≤ 100) ∧
  (0 ≤ r.overall_risk ∧ r.overall_risk ≤ 100) ∧
  (0 ≤ r.speed_kph ∧ r.speed_kph ≤ 12) ∧
  (1 ≤ r.gear ∧ r.gear ≤ 4) ∧
  (800 ≤ r.engine_rpm ∧ r.engine_rpm ≤ 2100) ∧
  (-22 ≤ r.grade_pct ∧ r.grade_pct ≤ 22) ∧
  (-18 ≤ r.roll_deg ∧ r.roll_deg ≤ 18) ∧
  (-15 ≤ r.pitch_deg ∧ r.pitch_deg ≤ 15) ∧
  (0 ≤ r.blade_load_pct ∧ r.blade_load_pct ≤ 115) ∧
  (5 ≤ r.fuel_pct ∧ r.fuel_pct ≤ 100) ∧
  (0.1 ≤ r.moisture_index ∧ r.moisture_index ≤ 0.95) ∧
  (0.25 ≤ r.ground_firmness ∧ r.ground_firmness ≤ 0.95) ∧
  (0.3 ≤ r.visibility ∧ r.visibility ≤ 1) ∧
  (0.5 ≤ r.gnss_hdop ∧ r.gnss_hdop ≤ 3.5) ∧
  (0.15 ≤ r.gnss_jitter_m ∧ r.gnss_jitter_m ≤ 3) ∧
  (8 ≤ r.micro_corrections_per_min ∧ r.micro_corrections_per_min ≤ 60) ∧
  r.state = classify_state r.overall_risk

theorem finishRow_bounded (tick : ℕ) (ts speed : ℚ) (gear rpm : ℤ)
    (grade roll pitch blade fuel firm moist vis hdop jit obsD obsB shift micro : ℚ)
    (hsp : 0 ≤ speed ∧ speed ≤ 12) (hg : 1 ≤ gear ∧ gear ≤ 4)
    (hr : 800 ≤ rpm ∧ rpm ≤ 2100) (hgr : -22 ≤ grade ∧ grade ≤ 22)
    (hro : -18 ≤ roll ∧ roll ≤ 18) (hpi : -15 ≤ pitch ∧ pitch ≤ 15)
    (hbl : 0 ≤ blade ∧ blade ≤ 115) (hfu : 5 ≤ fuel ∧ fuel ≤ 100)
    (hmo : 0.1 ≤ moist ∧ moist ≤ 0.95) (hfi : 0.25 ≤ firm ∧ firm ≤ 0.95)
    (hvi : 0.3 ≤ vis ∧ vis ≤ 1) (hhd : 0.5 ≤ hdop ∧ hdop ≤ 3.5)
    (hji : 0.15 ≤ jit ∧ jit ≤ 3) (hmi : 8 ≤ micro ∧ micro ≤ 60) :
    RowBounded (finishRow tick ts speed gear rpm grade roll pitch blade fuel firm
      moist vis hdop jit obsD obsB shift micro) :=
  ⟨compute_rollover_risk_mem _ _ _, compute_slip_risk_mem _ _ _ _,
    compute_obstacle_risk_mem _ _, compute_gnss_confidence_mem _ _ _,
    compute_overall_risk_mem _ _ _ _, hsp, hg, hr, hgr, hro, hpi, hbl, hfu,
    hmo, hfi, hvi, hhd, hji, hmi, rfl⟩

/-- C4: every row the generator produces — cold start or warm, under any
random draws — keeps the five risk fields in `[0,100]`, keeps every other
bounded field within its documented clamp range, and stores exactly
`classify_state` of its own overall risk as its classification. -/
theorem generated_row_bounded (ssTick : ℕ) (baseTs : ℚ)
    (prev : Option TelemetryRow) (d : Draws) :
    RowBounded (generate_tick ssTick baseTs prev d) := by
  cases prev with
  | none =>
      exact finishRow_bounded _ _ _ _ _ _ _ _ _ _ _ _ _ _ _ _ _ _ _
        (by norm_num) (by norm_num) (by norm_num) (by norm_num) (by norm_num)
        (by norm_num) (by norm_num) (by norm_num) (by norm_num) (by norm_num)
        (by norm_num) (by norm_num) (by norm_num) (by norm_num)
  | some p =>
      show RowBounded (finishRow _ _ _ _ _ _ _ _ _ _ _ _ _ _ _ _ _ _ _)
      exact finishRow_bounded _ _ _ _ _ _ _ _ _ _ _ _ _ _ _ _ _ _ _
        (clamp_bounds _ (by norm_num))
        ⟨le_max_left _ _, max_le (by norm_num) (min_le_left _ _)⟩
        (pyInt_bounds (by norm_num)
          ((clamp_bounds _ (by norm_num)).1.trans_eq' (by norm_num))
          ((clamp_bounds _ (by norm_num)).2.trans_eq (by norm_num)))
        (clamp_bounds _ (by norm_num)) (clamp_bounds _ (by norm_num))
        (clamp_bounds _ (by norm_num)) (clamp_bounds _ (by norm_num))
        (clamp_bounds _ (by norm_num)) (clamp_bounds _ (by norm_num))
        (clamp_bounds _ (by norm_num)) (clamp_bounds _ (by norm_num))
        (clamp_bounds _ (by norm_num)) (clamp_bounds _ (by norm_num))
        (clamp_bounds _ (by norm_num))

/-! ## C10: the obstacle-distance sentinel invariant -/

/-- The obstacle-distance values the generator is supposed to produce:
either a real distance in `[6, 80]` or exactly the sentinel `999`. -/
def obstacleOk (x : ℚ) : Prop := (6 ≤ x ∧ x ≤ 80) ∨ x = 999

/-- C10: if the previous row's obstacle distance is in `[6,80]` or `999`
(vacuously so on cold start) and the draws come from their distributions'
supports, the produced row's obstacle distance is again in `[6,80]` or
exactly `999`: a spawn lands in `[6,35]`, the relax step adds 3 and resets
to `999` once beyond 80, and cold start uses `999`. -/
theorem obstacle_distance_invariant (ssTick : ℕ) (baseTs : ℚ)
    (prev : Option TelemetryRow) (d : Draws) (hd : DrawsValid d)
    (hprev : ∀ p, prev = some p → obstacleOk p.obstacle_distance_m) :
    obstacleOk (generate_tick ssTick baseTs prev d).obstacle_distance_m := by
  obtain ⟨-, -, -, -, hu0, hu1, -, -⟩ := hd
  cases prev with
  | none => exact Or.inr rfl
  | some p =>
      have hp := hprev p rfl
      show obstacleOk (finishRow _ _ _ _ _ _ _ _ _ _ _ _ _ _ _
        (if d.uSpawn < 0.06 then
            ((6 : ℚ) + (35 - 6) * d.uObsDist, -120 + (120 - (-120)) * d.uObsBear)
          else
            let dist := p.obstacle_distance_m + 3
            (if dist > 80 then 999 else dist, p.obstacle_bearing_deg)).1
        _ _ _).obstacle_distance_m
      show obstacleOk (if d.uSpawn < 0.06 then
            ((6 : ℚ) + (35 - 6) * d.uObsDist, -120 + (120 - (-120)) * d.uObsBear)
          else
            let dist := p.obstacle_distance_m + 3
            (if dist > 80 then 999 else dist, p.obstacle_bearing_deg)).1
      split_ifs with hspawn
      · show obstacleOk ((6 : ℚ) + (35 - 6) * d.uObsDist)
        exact Or.inl ⟨by linarith, by linarith⟩
      · show obstacleOk (if p.obstacle_distance_m + 3 > 80 then (999 : ℚ)
          else p.obstacle_distance_m + 3)
        split_ifs with hfar
        · exact Or.inr rfl
        · rcases hp with ⟨h6, _⟩ | h999
          · exact Or.inl ⟨by linarith, by linarith⟩
          · rw [h999] at hfar
            norm_num at hfar

/-! ## C5: audit log retention -/

theorem auditAppend_small {l : List AuditEntry} (e : AuditEntry)
    (h : l.length + 1 ≤ 150) : auditAppend l e = l ++ [e] := by
  unfold auditAppend takeLast
  have : (l ++ [e]).length - 150 = 0 := by
    simp only [List.length_append, List.length_singleton]
    omega
  rw [this, List.drop_zero]

theorem foldl_auditAppend_small : ∀ (es acc : List AuditEntry),
    acc.length + es.length ≤ 150 →
    List.foldl auditAppend acc es = acc ++ es := by
  intro es
  induction es with
  | nil => intro acc _; simp
  | cons e es ih =>
      intro acc h
      rw [List.foldl_cons, auditAppend_small e (by simp at h; omega),
        ih (acc ++ [e]) (by simp at h ⊢; omega)]
      simp

/-- C5: one `log_audit` append leaves `min(len+1, 150)` entries, inserts
the new entry at the end while evicting from the front exactly to the
150-cap, and after 151 appends into an empty log the retained entries are
the last 150 in insertion order (the oldest is gone, the 151st present). -/
theorem audit_log_retention :
    (∀ (l : List AuditEntry) (e : AuditEntry),
      (auditAppend l e).length = min (l.length + 1) 150 ∧
      auditAppend l e = l.drop (l.length + 1 - 150) ++ [e]) ∧
    (∀ es : List AuditEntry, es.length = 151 →
      List.foldl auditAppend [] es = es.drop 1) := by
  constructor
  · intro l e
    constructor
    · unfold auditAppend takeLast
      simp only [List.length_drop, List.length_append, List.length_singleton]
      omega
    · unfold auditAppend takeLast
      rw [List.drop_append_of_le_length (by simp)]
      have hl : (l ++ [e]).length - 150 = l.length + 1 - 150 := by simp
      rw [hl]
  · intro es h
    have hne : es ≠ [] := by
      intro hnil
      rw [hnil] at h
      simp at h
    have hdec : es.dropLast ++ [es.getLast hne] = es :=
      List.dropLast_append_getLast hne
    have hlen : es.dropLast.length = 150 := by
      rw [List.length_dropLast, h]
    calc List.foldl auditAppend [] es
        = List.foldl auditAppend [] (es.dropLast ++ [es.getLast hne]) := by rw [hdec]
      _ = auditAppend (List.foldl auditAppend [] es.dropLast) (es.getLast hne) := by
          rw [List.foldl_append, List.foldl_cons, List.foldl_nil]
      _ = auditAppend es.dropLast (es.getLast hne) := by
          rw [foldl_auditAppend_small es.dropLast [] (by simp [hlen])]
          simp
      _ = (es.dropLast ++ [es.getLast hne]).drop 1 := by
          unfold auditAppend takeLast
          have hl : (es.dropLast ++ [es.getLast hne]).length - 150 = 1 := by
            simp [hlen]
          rw [hl]
      _ = es.drop 1 := by rw [hdec]

/-- Witness for C5: a concrete 151-entry append run keeps entries 2..151. -/
theorem audit_log_retention_witness :
    List.foldl auditAppend [] (List.replicate 151 (⟨0, "k", "s", []⟩ : AuditEntry))
      = (List.replicate 151 (⟨0, "k", "s", []⟩ : AuditEntry)).drop 1 :=
  audit_log_retention.2 (List.replicate 151 ⟨0, "k", "s", []⟩) (by simp)

/-! ## C2: determinism of the generator under identical seeding -/

/-- Counterexample to C2 as stated: two cold-start calls whose wall-clock
readings are `0` s and `4294967.295` s derive the same seed
(`int(t*1000) % (2**32-1)` collides), so their randomness sources are
seeded identically and their draws coincide — yet the produced rows differ,
because the row's `ts` field records the wall clock itself. -/
theorem seed_collision_row_differs :
    rngSeed 0 = rngSeed (4294967295/1000) ∧
    generate_tick_live none 0 prngZero ≠
      generate_tick_live none (4294967295/1000) prngZero := by
  constructor
  · norm_num [rngSeed, pyInt]
  · intro h
    have hts : (0 : ℚ) = 4294967295/1000 := congrArg TelemetryRow.ts h
    norm_num at hts

/-- C2 (amended): two generator calls from equal previous rows whose
randomness sources agree at the seeds actually consulted produce rows that
are identical in every field computed from the previous row and the draws
— i.e. identical after erasing the wall-clock `ts` field — and fully
identical when the two calls also read the same wall-clock time; and a
multi-tick run from cold start is a pure function of the injected clock and
random source, so identically supplied runs coincide tick for tick. -/
theorem generator_determinism_amended :
    (∀ (prev : Option TelemetryRow) (t₁ t₂ : ℚ) (prng prngB : ℤ → Draws),
      prng (rngSeed t₁) = prngB (rngSeed t₂) →
      eraseTs (generate_tick_live prev t₁ prng) =
        eraseTs (generate_tick_live prev t₂ prngB) ∧
      (t₁ = t₂ →
        generate_tick_live prev t₁ prng = generate_tick_live prev t₂ prngB)) ∧
    (∀ (n : ℕ) (clock clockB : ℕ → ℚ) (prng prngB : ℤ → Draws),
      (∀ i, clock i = clockB i) → (∀ z, prng z = prngB z) →
      runTicks n clock prng = runTicks n clockB prngB) := by
  constructor
  · intro prev t₁ t₂ prng prngB hseed
    constructor
    · unfold generate_tick_live
      rw [hseed]
      cases prev <;> rfl
    · intro ht
      subst ht
      unfold generate_tick_live
      rw [hseed]
  · intro n clock clockB prng prngB hc hp
    rw [funext hc, funext hp]

/-- Witness for C2 (amended): the concrete all-zero source driven at a
fixed clock reproduces its own single tick and its own 5-tick run. -/
theorem generator_determinism_witness :
    eraseTs (generate_tick_live none 0 prngZero) =
      eraseTs (generate_tick_live none 0 prngZero) ∧
    runTicks 5 (fun i => (i : ℚ)) prngZero = runTicks 5 (fun i => (i : ℚ)) prngZero :=
  ⟨(generator_determinism_amended.1 none 0 0 prngZero prngZero rfl).1,
   generator_determinism_amended.2 5 _ _ prngZero prngZero
     (fun _ => rfl) (fun _ => rfl)⟩

/-! ## C1 / C9: the decision operation -/

theorem find?_updateFirst (ps : List Proposal) (pid : ℕ) (st : Status) :
    (updateFirst ps pid st).find? (fun q => q.id == pid) =
      (ps.find? (fun q => q.id == pid)).map
        (fun p => { p with status := st }) := by
  induction ps with
  | nil => rfl
  | cons p rest ih =>
      unfold updateFirst
      by_cases h : (p.id == pid) = true
      · rw [if_pos h]
        have h2 : (Proposal.id { p with status := st } == pid) = true := by
          simpa using h
        simp only [List.find?, h, h2, Option.map_some']
      · rw [if_neg h]
        have hb : (p.id == pid) = false := by simpa using h
        simp only [List.find?, hb, ih]

theorem decideProposal_some {s : SimState} {pid : ℕ} {st : Status} {now : ℚ}
    {s' : SimState} (h : decideProposal s pid st now = some s') :
    ∃ p, s.proposals.find? (fun q => q.id == pid) = some p ∧
      p.status = Status.PENDING ∧
      s' = { proposals := updateFirst s.proposals pid st
             audit := (update_proposal_status s.audit p st now).2
             next_proposal_id := s.next_proposal_id } := by
  unfold decideProposal at h
  split at h
  · exact absurd h (by simp)
  · rename_i p hfind
    split at h
    · rename_i hpend
      exact ⟨p, hfind, by simpa using hpend, (Option.some.inj h).symm⟩
    · exact absurd h (by simp)

/-- C1: for `newStatus ∈ {APPROVED, REJECTED, DEFERRED}`, the decision
operation fails (returns `none`, touching nothing) when no proposal has the
requested id or when the found proposal is not `PENDING`; on a `PENDING`
proposal it succeeds, changing exactly the first matching proposal's status
and appending exactly one `decision` audit entry that records the previous
status `PENDING`; and a repeated decision on the same id then fails. -/
theorem decide_gate_and_single_audit (s : SimState) (pid : ℕ) (st : Status)
    (now nowB : ℚ)
    (hst : st = Status.APPROVED ∨ st = Status.REJECTED ∨ st = Status.DEFERRED) :
    (s.proposals.find? (fun q => q.id == pid) = none →
      decideProposal s pid st now = none) ∧
    (∀ p, s.proposals.find? (fun q => q.id == pid) = some p →
      p.status ≠ Status.PENDING → decideProposal s pid st now = none) ∧
    (∀ p, s.proposals.find? (fun q => q.id == pid) = some p →
      p.status = Status.PENDING → decideProposal s pid st now = some
        { proposals := updateFirst s.proposals pid st
          audit := auditAppend s.audit ⟨now, "decision",
            statusStr st ++ " → Proposal #" ++ toString pid,
            [("title", MetaVal.s p.title),
             ("prev", MetaVal.s (statusStr Status.PENDING))]⟩
          next_proposal_id := s.next_proposal_id }) ∧
    (∀ s', decideProposal s pid st now = some s' →
      decideProposal s' pid st nowB = none) := by
  have hstp : st ≠ Status.PENDING := by
    rcases hst with h | h | h <;> (rw [h]; intro hc; cases hc)
  refine ⟨?_, ?_, ?_, ?_⟩
  · intro hnone
    unfold decideProposal
    rw [hnone]
  · intro p hfind hnp
    unfold decideProposal
    have hb : (p.status == Status.PENDING) = false := by
      simp [hnp]
    simp only [hfind, hb]
    rfl
  · intro p hfind hp
    have hid : p.id = pid := by
      have := List.find?_some hfind
      simpa using this
    unfold decideProposal
    have hb : (p.status == Status.PENDING) = true := by simp [hp]
    simp only [hfind, hb, if_true]
    simp only [update_proposal_status, log_audit, hid, hp]
  · intro s' hs'
    obtain ⟨p, hfind, hp, rfl⟩ := decideProposal_some hs'
    unfold decideProposal
    have hfind' : (updateFirst s.proposals pid st).find? (fun q => q.id == pid)
        = some { p with status := st } := by
      rw [find?_updateFirst, hfind]
      rfl
    have hb : (Proposal.status { p with status := st } == Status.PENDING) = false := by
      simp [hstp]
    simp only [hfind', hb]
    rfl

/-- The concrete successful decision used by the witnesses below. -/
def state4A : SimState :=
  { proposals := updateFirst state4.proposals 1 Status.APPROVED
    audit := (update_proposal_status state4.audit (mkP 1 Status.PENDING)
      Status.APPROVED 0).2
    next_proposal_id := 5 }

/-- Witness for C1: on `state4`, deciding a missing id fails, deciding the
`PENDING` proposal 1 succeeds with the stated shape, deciding the
already-approved proposal 1 again fails. -/
theorem decide_gate_witness :
    decideProposal state4 9 Status.APPROVED 0 = none ∧
    decideProposal state4 1 Status.APPROVED 0 = some
      { proposals := updateFirst state4.proposals 1 Status.APPROVED
        audit := auditAppend state4.audit ⟨0, "decision",
          statusStr Status.APPROVED ++ " → Proposal #" ++ toString 1,
          [("title", MetaVal.s (mkP 1 Status.PENDING).title),
           ("prev", MetaVal.s (statusStr Status.PENDING))]⟩
        next_proposal_id := 5 } ∧
    decideProposal state4A 1 Status.DEFERRED 0 = none := by
  refine ⟨?_, ?_, ?_⟩
  · exact (decide_gate_and_single_audit state4 9 Status.APPROVED 0 0
      (Or.inl rfl)).1 (by decide)
  · exact (decide_gate_and_single_audit state4 1 Status.APPROVED 0 0
      (Or.inl rfl)).2.2.1 (mkP 1 Status.PENDING) (by decide) rfl
  · exact (decide_gate_and_single_audit state4A 1 Status.DEFERRED 0 0
      (Or.inr (Or.inr rfl))).2.1 (mkP 1 Status.APPROVED) (by decide) (by decide)

/-- The frame condition one decision step guarantees position by position:
identity, creation time, title, rationale and snapshot are preserved, a
proposal with a different id is untouched, and any change is exactly the
status update of the targeted id. -/
def frameRel (pid : ℕ) (st : Status) (p q : Proposal) : Prop :=
  q.id = p.id ∧ q.created_ts = p.created_ts ∧ q.title = p.title ∧
  q.rationale = p.rationale ∧ q.snapshot = p.snapshot ∧
  (p.id ≠ pid → q = p) ∧
  (q = p ∨ (p.id = pid ∧ q = { p with status := st }))

theorem updateFirst_frame (ps : List Proposal) (pid : ℕ) (st : Status) :
    List.Forall₂ (frameRel pid st) ps (updateFirst ps pid st) := by
  induction ps with
  | nil => exact List.Forall₂.nil
  | cons p rest ih =>
      unfold updateFirst
      by_cases h : (p.id == pid) = true
      · rw [if_pos h]
        refine List.Forall₂.cons
          ⟨rfl, rfl, rfl, rfl, rfl,
            fun hne => absurd (by simpa using h) hne,
            Or.inr ⟨by simpa using h, rfl⟩⟩ ?_
        exact List.forall₂_same.mpr
          (fun q _ => ⟨rfl, rfl, rfl, rfl, rfl, fun _ => rfl, Or.inl rfl⟩)
      · rw [if_neg h]
        exact List.Forall₂.cons
          ⟨rfl, rfl, rfl, rfl, rfl, fun _ => rfl, Or.inl rfl⟩ ih

/-- C9: a successful decision rewrites only the status of the targeted
proposal: every proposal keeps its id, creation timestamp, title, rationale
and snapshot, proposals with other ids are untouched, the list keeps its
length and order, and the id counter is unchanged. -/
theorem decide_frame_effect (s : SimState) (pid : ℕ) (st : Status) (now : ℚ)
    (s' : SimState) (h : decideProposal s pid st now = some s') :
    List.Forall₂ (frameRel pid st) s.proposals s'.proposals ∧
    s'.proposals.length = s.proposals.length ∧
    s'.next_proposal_id = s.next_proposal_id := by
  obtain ⟨p, hfind, hp, rfl⟩ := decideProposal_some h
  exact ⟨updateFirst_frame _ _ _,
    ((updateFirst_frame s.proposals pid st).length_eq).symm, rfl⟩

/-- Witness for C9: the concrete decision on `state4` satisfies the frame
condition. -/
theorem decide_frame_effect_witness :
    List.Forall₂ (frameRel 1 Status.APPROVED) state4.proposals
      state4A.proposals ∧
    state4A.proposals.length = state4.proposals.length ∧
    state4A.next_proposal_id = state4.next_proposal_id :=
  decide_frame_effect state4 1 Status.APPROVED 0 state4A (by decide)

/-! ## C6: backpressure on pending proposals -/

theorem countPending_append (ps : List Proposal) (p : Proposal) :
    countPending (ps ++ [p]) ≤ countPending ps + 1 := by
  unfold countPending
  rw [List.filter_append, List.length_append]
  have : (List.filter (fun q => q.status == Status.PENDING) [p]).length ≤ 1 := by
    simp only [List.filter]
    split <;> simp
  omega

/-- C6: with 4 or more `PENDING` proposals outstanding, processing a row
changes nothing (so a state with at most 4 pending proposals still has at
most 4 after processing any row); and concretely, on the 4-pending state
`state4` a qualifying row creates nothing, while after proposal 1 is
decided the same qualifying row creates a 5th proposal (a new `PENDING`
one, restoring the pending count to 4). -/
theorem proposal_backpressure :
    (∀ (s : SimState) (row : TelemetryRow) (now : ℚ),
      4 ≤ countPending s.proposals → maybe_generate_proposal s row now = s) ∧
    (∀ (s : SimState) (row : TelemetryRow) (now : ℚ),
      countPending s.proposals ≤ 4 →
      countPending (maybe_generate_proposal s row now).proposals ≤ 4) ∧
    maybe_generate_proposal state4 qRow 0 = state4 ∧
    decideProposal state4 1 Status.APPROVED 0 = some state4A ∧
    countPending state4A.proposals = 3 ∧
    (maybe_generate_proposal state4A qRow 0).proposals.length =
      state4A.proposals.length + 1 ∧
    countPending (maybe_generate_proposal state4A qRow 0).proposals = 4 := by
  have hcap : ∀ (s : SimState) (row : TelemetryRow) (now : ℚ),
      4 ≤ countPending s.proposals → maybe_generate_proposal s row now = s := by
    intro s row now h
    unfold maybe_generate_proposal
    rw [if_pos h]
  refine ⟨hcap, ?_, ?_, ?_, ?_, ?_, ?_⟩
  · intro s row now h
    by_cases h4 : 4 ≤ countPending s.proposals
    · rw [hcap s row now h4]
      exact h
    · unfold maybe_generate_proposal
      rw [if_neg h4]
      split_ifs with ht
      · exact h
      · show countPending (s.proposals ++
          [{ id := s.next_proposal_id
             created_ts := now
             title := titleOf (triggersOf row)
             rationale := rationaleOf (triggersOf row) row
             status := Status.PENDING
             snapshot := rowSnapshot row }]) ≤ 4
        have := countPending_append s.proposals
          { id := s.next_proposal_id
            created_ts := now
            title := titleOf (triggersOf row)
            rationale := rationaleOf (triggersOf row) row
            status := Status.PENDING
            snapshot := rowSnapshot row }
        omega
  · exact hcap state4 qRow 0 (by decide)
  · decide
  · decide
  · decide
  · decide

/-- Witness for C6: the universally quantified parts applied at `state4`
and at a one-proposal state below the cap. -/
theorem proposal_backpressure_witness :
    maybe_generate_proposal state4 qRow 7 = state4 ∧
    countPending (maybe_generate_proposal state4A qRow 7).proposals ≤ 4 :=
  ⟨proposal_backpressure.1 state4 qRow 7 (by decide),
   proposal_backpressure.2.1 state4A qRow 7 (by decide)⟩

/-- Witness for C10: a warm tick from a row with the sentinel distance,
under the all-zero draws, yields an obstacle distance in `[6,80]` or `999`. -/
theorem obstacle_distance_invariant_witness :
    obstacleOk (generate_tick 1 0 (some qRow) dZero).obstacle_distance_m :=
  obstacle_distance_invariant 1 0 (some qRow) dZero (by decide)
    (fun p hp => by
      injection hp with h
      rw [← h]
      exact Or.inr rfl)

end D11
